import Mathlib

/-!
Shallow embedding of the grid-order rebalancing strategy
(hummingbot/strategy/grid_order/grid_order.py): proposal construction,
price-band filtering, scheduler timers, fill-completion handlers, max-age
cancellation and reference-price selection.

Modelling conventions: Python floats and Decimals are rationals; a price
that can be NaN is an `Option ℚ` with `none` standing for NaN; a call that
raises ZeroDivisionError is modelled as returning `none` for the whole
call; the two-decimal formatting of order sizes is `round2`.
-/

namespace GridOrder

/-- One order leg (`PriceSize` in `data_types`): a price and a size. -/
structure PriceSize where
  price : ℚ
  size : ℚ
deriving Repr, DecidableEq

/-- An order proposal (`Proposal` in `data_types`): buy legs and sell legs. -/
structure Proposal where
  buys : List PriceSize
  sells : List PriceSize
deriving Repr, DecidableEq

/-- The configuration fields of `GridOrder.__init__` that the proposal
builder reads: the target base percentage, the rebalance tolerance
percentage, and the number of buy and sell levels (both fixed to 1 by the
constructor; kept as parameters of the model). -/
structure Config where
  basePercentage : ℚ
  rebalancePercentage : ℚ
  buyLevels : ℕ
  sellLevels : ℕ
deriving Repr, DecidableEq

/-- Rounding to two decimal places, modelling the two-decimal string
formatting applied to order sizes in `create_base_proposal`. -/
def round2 (x : ℚ) : ℚ := (round (x * 100) : ℤ) / 100

/-- The buy loop of `create_base_proposal` (lines 240-246): one leg per
buy level, priced at the best bid, sized as the quote balance times the
rebalance tolerance over 100, divided by the best bid and rounded to two
decimals; a leg whose size is not positive is dropped. -/
def buyLegs (cfg : Config) (bid quote_balance : ℚ) : List PriceSize :=
  (List.range cfg.buyLevels).filterMap (fun _ =>
    let size := round2 (quote_balance * cfg.rebalancePercentage / 100 / bid)
    if 0 < size then some ⟨bid, size⟩ else none)

/-- The sell loop of `create_base_proposal` (lines 248-253): one leg per
sell level, priced at the best ask, sized as the base balance (in quote
units) times the rebalance tolerance over 100, rounded to two decimals;
a leg whose size is not positive is dropped. -/
def sellLegs (cfg : Config) (ask base_balance : ℚ) : List PriceSize :=
  (List.range cfg.sellLevels).filterMap (fun _ =>
    let size := round2 (base_balance * cfg.rebalancePercentage / 100)
    if 0 < size then some ⟨ask, size⟩ else none)

/-- `create_base_proposal` (lines 226-255). `buyRefPrice` and
`sellRefPrice` are the best-bid and best-ask prices, with `none` for NaN.
`total_usd = base_balance + quote_balance` and
`base_percentage = 100 * base_balance / total_usd` are inlined. The two
ZeroDivisionError paths of the source are modelled as `none`: a zero
`total_usd` in the percentage computation, and a zero best bid reaching
the per-level size division in the buy branch. -/
def create_base_proposal (cfg : Config) (buyRefPrice sellRefPrice : Option ℚ)
    (base_balance quote_balance : ℚ) : Option Proposal :=
  if base_balance + quote_balance = 0 then none
  else if buyRefPrice.isSome ∧
      100 * base_balance / (base_balance + quote_balance) <
        cfg.basePercentage - cfg.rebalancePercentage then
    if buyRefPrice.getD 0 = 0 ∧ 0 < cfg.buyLevels then none
    else some ⟨buyLegs cfg (buyRefPrice.getD 0) quote_balance, []⟩
  else if sellRefPrice.isSome ∧
      cfg.basePercentage + cfg.rebalancePercentage <
        100 * base_balance / (base_balance + quote_balance) then
    some ⟨[], sellLegs cfg (sellRefPrice.getD 0) base_balance⟩
  else
    some ⟨[], []⟩

/-- The first statement of `apply_price_band` (lines 261-263): clear both
sides when the ceiling is enabled and the reference price is at or above
it. -/
def apply_price_ceiling (priceCeiling price : ℚ) (proposal : Proposal) :
    Proposal :=
  if 0 < priceCeiling ∧ priceCeiling ≤ price then ⟨[], []⟩ else proposal

/-- The second statement of `apply_price_band` (lines 264-266): clear both
sides when the floor is enabled and the reference price is at or below
it. -/
def apply_price_floor (priceFloor price : ℚ) (proposal : Proposal) :
    Proposal :=
  if 0 < priceFloor ∧ price ≤ priceFloor then ⟨[], []⟩ else proposal

/-- `apply_price_band` (lines 260-266): the ceiling check followed by the
floor check, both against the current reference price (`get_price`),
which the claims fix to a single value `price`. -/
def apply_price_band (priceCeiling priceFloor price : ℚ)
    (proposal : Proposal) : Proposal :=
  apply_price_floor priceFloor price
    (apply_price_ceiling priceCeiling price proposal)

/-- The scheduler's mutable state: `_create_timestamp`,
`_cancel_timestamp`, `_filled_buys_balance`, `_filled_sells_balance` and
`_last_own_trade_price` (NaN as `none`). -/
structure SchedulerState where
  createTimestamp : ℚ
  cancelTimestamp : ℚ
  filledBuysBalance : ℕ
  filledSellsBalance : ℕ
  lastOwnTradePrice : Option ℚ
deriving Repr, DecidableEq

/-- `set_timers` (lines 343-348), called at current timestamp `t`. -/
def set_timers (orderRefreshTime t : ℚ) (st : SchedulerState) :
    SchedulerState :=
  let nextCycle := t + orderRefreshTime
  let create :=
    if st.createTimestamp ≤ t then nextCycle else st.createTimestamp
  let cancel :=
    if st.cancelTimestamp ≤ t then min create nextCycle
    else st.cancelTimestamp
  { st with createTimestamp := create, cancelTimestamp := cancel }

/-- The order record returned by the tracker's `get_limit_order`: the
fields the completion handlers read. -/
structure LimitOrderRecord where
  price : ℚ
  quantity : ℚ
deriving Repr, DecidableEq

/-- `did_complete_buy_order` (lines 474-498) at current timestamp `t`;
`lookup` is the tracker's `get_limit_order` result for the event's order
id. Returns the new scheduler state and whether a notification was
emitted. -/
def did_complete_buy_order (filledOrderDelay t : ℚ)
    (lookup : Option LimitOrderRecord) (st : SchedulerState) :
    SchedulerState × Bool :=
  match lookup with
  | none => (st, false)
  | some r =>
    let create := t + filledOrderDelay
    let cancel := min st.cancelTimestamp create
    ({ st with createTimestamp := create, cancelTimestamp := cancel,
               filledBuysBalance := st.filledBuysBalance + 1,
               lastOwnTradePrice := some r.price }, true)

/-- `did_complete_sell_order` (lines 500-524) at current timestamp `t`. -/
def did_complete_sell_order (filledOrderDelay t : ℚ)
    (lookup : Option LimitOrderRecord) (st : SchedulerState) :
    SchedulerState × Bool :=
  match lookup with
  | none => (st, false)
  | some r =>
    let create := t + filledOrderDelay
    let cancel := min st.cancelTimestamp create
    ({ st with createTimestamp := create, cancelTimestamp := cancel,
               filledSellsBalance := st.filledSellsBalance + 1,
               lastOwnTradePrice := some r.price }, true)

/-- An active non-hanging order as `cancel_active_orders_on_max_age_limit`
sees it: its client order id (abstracted to a number) and its age in
seconds (`order_age`). -/
structure ActiveOrder where
  clientOrderId : ℕ
  age : ℚ
deriving Repr, DecidableEq

/-- `cancel_active_orders_on_max_age_limit` (lines 550-558): the ids of
the orders the strategy cancels, given the active non-hanging orders. -/
def cancel_active_orders_on_max_age_limit (maxOrderAge : ℚ)
    (activeOrders : List ActiveOrder) : List ℕ :=
  if activeOrders ≠ [] ∧
      activeOrders.any (fun o => decide (maxOrderAge < o.age)) then
    activeOrders.map (fun o => o.clientOrderId)
  else []

/-- The price-type selector (`PriceType` of the events module, as used by
`get_price_type` lines 578-594). -/
inductive PriceType where
  | MidPrice
  | BestBid
  | BestAsk
  | LastTrade
  | LastOwnTrade
  | InventoryCost
  | Custom
deriving Repr, DecidableEq

/-- The price read from the configured source in `get_price` (lines
164-169), before the NaN fallback: the stored last-own-trade price for
`LastOwnTrade`, the provider's mid price for `InventoryCost`, and the
provider's price of the configured type otherwise. -/
def selected_price (priceType : PriceType) (lastOwnTradePrice : Option ℚ)
    (getPriceByType : PriceType → Option ℚ) : Option ℚ :=
  match priceType with
  | .LastOwnTrade => lastOwnTradePrice
  | .InventoryCost => getPriceByType .MidPrice
  | pt => getPriceByType pt

/-- `get_price` (lines 162-174): the selected price, with the provider's
mid price substituted when the selected price is NaN. -/
def get_price (priceType : PriceType) (lastOwnTradePrice : Option ℚ)
    (getPriceByType : PriceType → Option ℚ) : Option ℚ :=
  match selected_price priceType lastOwnTradePrice getPriceByType with
  | none => getPriceByType .MidPrice
  | some p => some p

/-- Every leg the buy loop keeps is priced at the best bid, sized by the
rounded rebalance formula, and has positive size. -/
theorem buyLegs_mem (cfg : Config) (bid q : ℚ) (leg : PriceSize)
    (h : leg ∈ buyLegs cfg bid q) :
    leg.price = bid ∧
    leg.size = round2 (q * cfg.rebalancePercentage / 100 / bid) ∧
    0 < leg.size := by
  unfold buyLegs at h
  rcases List.mem_filterMap.mp h with ⟨a, -, ha⟩
  simp only at ha
  split_ifs at ha with hs
  · cases ha
    exact ⟨rfl, rfl, hs⟩

/-- A non-positive rounded size makes the buy loop keep no leg. -/
theorem buyLegs_nonpos (cfg : Config) (bid q : ℚ)
    (h : round2 (q * cfg.rebalancePercentage / 100 / bid) ≤ 0) :
    buyLegs cfg bid q = [] := by
  unfold buyLegs
  rw [List.filterMap_eq_nil_iff]
  intro a _
  simp only
  rw [if_neg (not_lt.mpr h)]

/-- C3: a buy (resp. sell) completion at time `t` whose order is still in
the tracker sets the create timestamp to `t` plus the filled-order delay,
sets the cancel timestamp to the minimum of its previous value and the new
create timestamp (hence cancel ≤ create afterwards), increments the
corresponding fill counter by exactly one, and records the filled order's
price as the last own trade price. -/
theorem C3_completion_updates (delay t : ℚ) (r : LimitOrderRecord)
    (st : SchedulerState) :
    ((did_complete_buy_order delay t (some r) st).1.createTimestamp
        = t + delay ∧
      (did_complete_buy_order delay t (some r) st).1.cancelTimestamp
        = min st.cancelTimestamp (t + delay) ∧
      (did_complete_buy_order delay t (some r) st).1.cancelTimestamp
        ≤ (did_complete_buy_order delay t (some r) st).1.createTimestamp ∧
      (did_complete_buy_order delay t (some r) st).1.filledBuysBalance
        = st.filledBuysBalance + 1 ∧
      (did_complete_buy_order delay t (some r) st).1.lastOwnTradePrice
        = some r.price) ∧
    ((did_complete_sell_order delay t (some r) st).1.createTimestamp
        = t + delay ∧
      (did_complete_sell_order delay t (some r) st).1.cancelTimestamp
        = min st.cancelTimestamp (t + delay) ∧
      (did_complete_sell_order delay t (some r) st).1.cancelTimestamp
        ≤ (did_complete_sell_order delay t (some r) st).1.createTimestamp ∧
      (did_complete_sell_order delay t (some r) st).1.filledSellsBalance
        = st.filledSellsBalance + 1 ∧
      (did_complete_sell_order delay t (some r) st).1.lastOwnTradePrice
        = some r.price) :=
  ⟨⟨rfl, rfl, min_le_right _ _, rfl, rfl⟩,
   ⟨rfl, rfl, min_le_right _ _, rfl, rfl⟩⟩

/-- C7: a buy or sell completion whose order id is no longer in the
tracker is silently ignored: the scheduler state is returned unchanged and
no notification is emitted. -/
theorem C7_unknown_order_ignored (delay t : ℚ) (st : SchedulerState) :
    did_complete_buy_order delay t none st = (st, false) ∧
    did_complete_sell_order delay t none st = (st, false) :=
  ⟨rfl, rfl⟩

/-- C1 counterexample: with both balances zero (total value zero),
`create_base_proposal` hits the zero-divisor percentage computation and
returns no proposal at all, instead of defaulting the percentage to 0 and
returning a proposal. -/
theorem C1_counterexample :
    create_base_proposal ⟨50, 1, 1, 1⟩ (some 100) (some 101) 0 0 = none := by
  unfold create_base_proposal
  norm_num

/-- C1 amended: whenever the two balance inputs sum to zero,
`create_base_proposal` raises ZeroDivisionError in the base-percentage
computation (modelled as `none`): no proposal is returned and no
defaulting to 0 takes place. -/
theorem C1_zero_total (cfg : Config) (bid ask : Option ℚ) (b q : ℚ)
    (h : b + q = 0) :
    create_base_proposal cfg bid ask b q = none := by
  unfold create_base_proposal
  rw [if_pos h]

/-- C1 witness: a concrete balance pair summing to zero. -/
theorem C1_zero_total_witness :
    create_base_proposal ⟨50, 1, 1, 1⟩ (some 100) none 5 (-5) = none :=
  C1_zero_total ⟨50, 1, 1, 1⟩ (some 100) none 5 (-5) (by norm_num)

/-- C2 counterexample: with a defined (non-NaN) best bid of 0, positive
total value and a base percentage below the tolerance band, the buy-leg
size division divides by the best bid and raises ZeroDivisionError: no
proposal is returned, contrary to the claim's returned proposal with
priced buy legs and an empty sells list. -/
theorem C2_counterexample :
    create_base_proposal ⟨50, 1, 1, 1⟩ (some 0) (some 101) 0 1000 = none := by
  unfold create_base_proposal
  norm_num

/-- C2 amended: for every balance pair with positive total value whose
base percentage is below `target - tolerance`, when the best bid is
defined (not NaN) and nonzero, `create_base_proposal` returns a proposal
whose sells list is empty and whose every buy leg is priced at the best
bid with size `round2 (quoteBalance * tolerance / 100 / bestBid)`; a leg
with non-positive size is omitted (retained legs have positive size, and
a non-positive rounded size yields no buy leg at all). At a zero best bid
the size division raises ZeroDivisionError instead. -/
theorem C2_buy_side (cfg : Config) (bid : ℚ) (ask : Option ℚ) (b q : ℚ)
    (hbid : bid ≠ 0) (htot : 0 < b + q)
    (hpct : 100 * b / (b + q) <
      cfg.basePercentage - cfg.rebalancePercentage) :
    create_base_proposal cfg (some bid) ask b q =
      some ⟨buyLegs cfg bid q, []⟩ ∧
    (∀ leg ∈ buyLegs cfg bid q,
      leg.price = bid ∧
      leg.size = round2 (q * cfg.rebalancePercentage / 100 / bid) ∧
      0 < leg.size) ∧
    (round2 (q * cfg.rebalancePercentage / 100 / bid) ≤ 0 →
      buyLegs cfg bid q = []) := by
  refine ⟨?_, fun leg hleg => buyLegs_mem cfg bid q leg hleg,
    fun hs => buyLegs_nonpos cfg bid q hs⟩
  unfold create_base_proposal
  rw [if_neg htot.ne', if_pos ⟨rfl, hpct⟩,
    if_neg (fun hc => hbid hc.1)]
  rfl

/-- C2 witness: Scenario A of the spec; base 0, quote 1000, target 50,
tolerance 1, best bid 100 gives one buy leg of size 0.1 at price 100. -/
theorem C2_buy_side_witness :
    create_base_proposal ⟨50, 1, 1, 1⟩ (some 100) (some 101) 0 1000 =
      some ⟨buyLegs ⟨50, 1, 1, 1⟩ 100 1000, []⟩ ∧
    buyLegs ⟨50, 1, 1, 1⟩ 100 1000 = [⟨100, 1/10⟩] :=
  ⟨(C2_buy_side ⟨50, 1, 1, 1⟩ 100 (some 101) 0 1000 (by norm_num)
      (by norm_num) (by norm_num)).1,
   by unfold buyLegs round2; norm_num; rfl⟩

/-- C4 counterexample: at time 0 with refresh period 10 and a prior state
whose create timestamp is 20 and cancel timestamp is 30 (both ahead of the
current time), `set_timers` leaves the cancel timestamp at 30: it is not
set to the minimum of the create timestamp and time-plus-refresh, and the
cancel deadline exceeds the create deadline afterwards. -/
theorem C4_counterexample :
    (set_timers 10 0 ⟨20, 30, 0, 0, none⟩).createTimestamp = 20 ∧
    (set_timers 10 0 ⟨20, 30, 0, 0, none⟩).cancelTimestamp = 30 ∧
    (set_timers 10 0 ⟨20, 30, 0, 0, none⟩).cancelTimestamp ≠
      min (set_timers 10 0 ⟨20, 30, 0, 0, none⟩).createTimestamp (0 + 10) ∧
    ¬ (set_timers 10 0 ⟨20, 30, 0, 0, none⟩).cancelTimestamp ≤
      (set_timers 10 0 ⟨20, 30, 0, 0, none⟩).createTimestamp := by
  norm_num [set_timers]

/-- C4 amended: `set_timers` at time `t` sets the create timestamp to
`t + refresh` exactly when the prior create timestamp is at most `t`, and
leaves it unchanged (never below `t + refresh` in the updated case)
otherwise; it sets the cancel timestamp to the minimum of the (new)
create timestamp and `t + refresh` only when the prior cancel timestamp
is at most `t`, leaving it unchanged otherwise; the cancel deadline not
exceeding the create deadline afterwards is guaranteed when the refresh
period is nonnegative and the prior cancel timestamp is at most the
maximum of `t` and the prior create timestamp. -/
theorem C4_set_timers (refresh t : ℚ) (st : SchedulerState) :
    (st.createTimestamp ≤ t →
      (set_timers refresh t st).createTimestamp = t + refresh) ∧
    (t < st.createTimestamp →
      (set_timers refresh t st).createTimestamp = st.createTimestamp) ∧
    (st.createTimestamp ≤ t →
      t + refresh ≤ (set_timers refresh t st).createTimestamp) ∧
    (st.cancelTimestamp ≤ t →
      (set_timers refresh t st).cancelTimestamp =
        min (set_timers refresh t st).createTimestamp (t + refresh)) ∧
    (t < st.cancelTimestamp →
      (set_timers refresh t st).cancelTimestamp = st.cancelTimestamp) ∧
    (0 ≤ refresh → st.cancelTimestamp ≤ max t st.createTimestamp →
      (set_timers refresh t st).cancelTimestamp ≤
        (set_timers refresh t st).createTimestamp) := by
  unfold set_timers
  dsimp only
  refine ⟨fun h => by rw [if_pos h],
    fun h => by rw [if_neg (not_le.mpr h)],
    fun h => by rw [if_pos h],
    fun h => by rw [if_pos h],
    fun h => by rw [if_neg (not_le.mpr h)],
    fun h0 hmax => ?_⟩
  by_cases hc : st.cancelTimestamp ≤ t
  · rw [if_pos hc]
    exact min_le_left _ _
  · rw [if_neg hc]
    have hcc : st.cancelTimestamp ≤ st.createTimestamp := by
      rcases le_max_iff.mp hmax with h1 | h2
      · exact absurd h1 hc
      · exact h2
    by_cases hcr : st.createTimestamp ≤ t
    · exact absurd (hcc.trans hcr) hc
    · rw [if_neg hcr]
      exact hcc

/-- C4 witness: concrete timer states exercising each branch of the
amended statement at time 0 with refresh period 10. -/
theorem C4_set_timers_witness :
    (set_timers 10 0 ⟨0, 5, 0, 0, none⟩).createTimestamp = 0 + 10 ∧
    (set_timers 10 0 ⟨20, 30, 0, 0, none⟩).createTimestamp = 20 ∧
    0 + 10 ≤ (set_timers 10 0 ⟨0, 5, 0, 0, none⟩).createTimestamp ∧
    (set_timers 10 0 ⟨0, 0, 0, 0, none⟩).cancelTimestamp =
      min (set_timers 10 0 ⟨0, 0, 0, 0, none⟩).createTimestamp (0 + 10) ∧
    (set_timers 10 0 ⟨0, 5, 0, 0, none⟩).cancelTimestamp = 5 ∧
    (set_timers 10 0 ⟨0, 0, 0, 0, none⟩).cancelTimestamp ≤
      (set_timers 10 0 ⟨0, 0, 0, 0, none⟩).createTimestamp :=
  ⟨(C4_set_timers 10 0 ⟨0, 5, 0, 0, none⟩).1 (by norm_num),
   (C4_set_timers 10 0 ⟨20, 30, 0, 0, none⟩).2.1 (by norm_num),
   (C4_set_timers 10 0 ⟨0, 5, 0, 0, none⟩).2.2.1 (by norm_num),
   (C4_set_timers 10 0 ⟨0, 0, 0, 0, none⟩).2.2.2.1 (by norm_num),
   (C4_set_timers 10 0 ⟨0, 5, 0, 0, none⟩).2.2.2.2.1 (by norm_num),
   (C4_set_timers 10 0 ⟨0, 0, 0, 0, none⟩).2.2.2.2.2 (by norm_num)
     (by norm_num)⟩

/-- C5: an enabled ceiling (positive) with reference price at or above it
clears both lists; an enabled floor (positive) with reference price at or
below it clears both lists; a bound set to 0 never causes the clearing by
its own check (with the other check not firing, the proposal is returned
unchanged). -/
theorem C5_price_band (pc pf p : ℚ) (prop : Proposal) :
    (0 < pc → pc ≤ p →
      (apply_price_band pc pf p prop).buys = [] ∧
      (apply_price_band pc pf p prop).sells = []) ∧
    (0 < pf → p ≤ pf →
      (apply_price_band pc pf p prop).buys = [] ∧
      (apply_price_band pc pf p prop).sells = []) ∧
    (pc = 0 → ¬(0 < pf ∧ p ≤ pf) → apply_price_band pc pf p prop = prop) ∧
    (pf = 0 → ¬(0 < pc ∧ pc ≤ p) → apply_price_band pc pf p prop = prop)
    := by
  unfold apply_price_band apply_price_floor apply_price_ceiling
  refine ⟨fun h1 h2 => ?_, fun h1 h2 => ?_, fun h1 h2 => ?_,
    fun h1 h2 => ?_⟩
  · split_ifs with hf hc
    · exact ⟨rfl, rfl⟩
    · exact ⟨rfl, rfl⟩
    · exact absurd ⟨h1, h2⟩ hc
  · rw [if_pos ⟨h1, h2⟩]
    exact ⟨rfl, rfl⟩
  · rw [if_neg h2,
      if_neg (fun hcond => by rw [h1] at hcond; exact lt_irrefl 0 hcond.1)]
  · have hfloor : ¬(0 < pf ∧ p ≤ pf) := fun hcond => by
      rw [h1] at hcond
      exact lt_irrefl 0 hcond.1
    rw [if_neg hfloor, if_neg h2]

/-- C5 witness: a ceiling breach clears, a floor breach clears, and
disabled bounds leave a concrete proposal unchanged. -/
theorem C5_price_band_witness :
    ((apply_price_band 100 0 100 ⟨[⟨1, 1⟩], [⟨2, 2⟩]⟩).buys = [] ∧
      (apply_price_band 100 0 100 ⟨[⟨1, 1⟩], [⟨2, 2⟩]⟩).sells = []) ∧
    ((apply_price_band 0 50 40 ⟨[⟨1, 1⟩], [⟨2, 2⟩]⟩).buys = [] ∧
      (apply_price_band 0 50 40 ⟨[⟨1, 1⟩], [⟨2, 2⟩]⟩).sells = []) ∧
    apply_price_band 0 50 60 ⟨[⟨1, 1⟩], [⟨2, 2⟩]⟩ = ⟨[⟨1, 1⟩], [⟨2, 2⟩]⟩ ∧
    apply_price_band 30 0 10 ⟨[⟨1, 1⟩], [⟨2, 2⟩]⟩ = ⟨[⟨1, 1⟩], [⟨2, 2⟩]⟩ :=
  ⟨(C5_price_band 100 0 100 ⟨[⟨1, 1⟩], [⟨2, 2⟩]⟩).1 (by norm_num)
      (by norm_num),
   (C5_price_band 0 50 40 ⟨[⟨1, 1⟩], [⟨2, 2⟩]⟩).2.1 (by norm_num)
      (by norm_num),
   (C5_price_band 0 50 60 ⟨[⟨1, 1⟩], [⟨2, 2⟩]⟩).2.2.1 rfl
      (by rintro ⟨-, h⟩; norm_num at h),
   (C5_price_band 30 0 10 ⟨[⟨1, 1⟩], [⟨2, 2⟩]⟩).2.2.2 rfl
      (by rintro ⟨-, h⟩; norm_num at h)⟩

/-- C6: when every active non-hanging order has age at most the maximum
order age, no cancellation is issued; when at least one strictly exceeds
it, a cancellation is issued for every active non-hanging order. -/
theorem C6_max_age (maxAge : ℚ) (orders : List ActiveOrder) :
    ((∀ o ∈ orders, o.age ≤ maxAge) →
      cancel_active_orders_on_max_age_limit maxAge orders = []) ∧
    ((∃ o ∈ orders, maxAge < o.age) →
      cancel_active_orders_on_max_age_limit maxAge orders =
        orders.map (fun o => o.clientOrderId)) := by
  unfold cancel_active_orders_on_max_age_limit
  constructor
  · intro h
    have hno : ¬(orders ≠ [] ∧
        orders.any (fun o => decide (maxAge < o.age)) = true) := by
      rintro ⟨-, hany⟩
      obtain ⟨o, ho, hdec⟩ := List.any_eq_true.mp hany
      exact absurd (of_decide_eq_true hdec) (not_lt.mpr (h o ho))
    rw [if_neg hno]
  · rintro ⟨o, ho, hlt⟩
    rw [if_pos ⟨List.ne_nil_of_mem ho,
      List.any_eq_true.mpr ⟨o, ho, decide_eq_true hlt⟩⟩]

/-- C6 witness: a fresh set of two orders yields no cancellation; one
stale order among two yields cancellations for both. -/
theorem C6_max_age_witness :
    cancel_active_orders_on_max_age_limit 30 [⟨1, 10⟩, ⟨2, 20⟩] = [] ∧
    cancel_active_orders_on_max_age_limit 30 [⟨1, 10⟩, ⟨2, 40⟩] =
      List.map (fun o => o.clientOrderId)
        [(⟨1, 10⟩ : ActiveOrder), ⟨2, 40⟩] :=
  ⟨(C6_max_age 30 [⟨1, 10⟩, ⟨2, 20⟩]).1 (by
      intro o ho
      rcases List.mem_cons.mp ho with h | h
      · rw [h]; norm_num
      · rcases List.mem_cons.mp h with h2 | h2
        · rw [h2]; norm_num
        · exact absurd h2 (List.not_mem_nil o)),
   (C6_max_age 30 [⟨1, 10⟩, ⟨2, 40⟩]).2
      ⟨⟨2, 40⟩, by simp, by norm_num⟩⟩

/-- C8: with positive total value and the base percentage inside the
closed tolerance band, `create_base_proposal` returns the empty proposal;
with both the best bid and the best ask NaN (and a nonzero total value so
the percentage computation succeeds), the returned proposal is empty
regardless of the percentages. -/
theorem C8_within_band_empty (cfg : Config) (bid ask : Option ℚ)
    (b q : ℚ) :
    (0 < b + q →
      cfg.basePercentage - cfg.rebalancePercentage ≤ 100 * b / (b + q) →
      100 * b / (b + q) ≤ cfg.basePercentage + cfg.rebalancePercentage →
      create_base_proposal cfg bid ask b q = some ⟨[], []⟩) ∧
    (bid = none → ask = none → b + q ≠ 0 →
      create_base_proposal cfg bid ask b q = some ⟨[], []⟩) := by
  constructor
  · intro htot hlo hhi
    unfold create_base_proposal
    rw [if_neg htot.ne', if_neg (fun hc => absurd hc.2 (not_lt.mpr hlo)),
      if_neg (fun hc => absurd hc.2 (not_lt.mpr hhi))]
  · intro hbid hask hne
    unfold create_base_proposal
    rw [if_neg hne,
      if_neg (fun hc => by rw [hbid] at hc; simp at hc),
      if_neg (fun hc => by rw [hask] at hc; simp at hc)]

/-- C8 witness: a balanced 500/500 portfolio with target 50 and tolerance
1 yields the empty proposal, and so does a NaN bid and ask with nonzero
total value. -/
theorem C8_within_band_empty_witness :
    create_base_proposal ⟨50, 1, 1, 1⟩ (some 100) (some 101) 500 500 =
      some ⟨[], []⟩ ∧
    create_base_proposal ⟨50, 1, 1, 1⟩ none none 0 1000 = some ⟨[], []⟩ :=
  ⟨(C8_within_band_empty ⟨50, 1, 1, 1⟩ (some 100) (some 101) 500 500).1
      (by norm_num) (by norm_num) (by norm_num),
   (C8_within_band_empty ⟨50, 1, 1, 1⟩ none none 0 1000).2 rfl rfl
      (by norm_num)⟩

/-- C9: at a fixed reference price, applying the price-band filter twice
yields the same proposal as applying it once. -/
theorem C9_price_band_idempotent (pc pf p : ℚ) (prop : Proposal) :
    apply_price_band pc pf p (apply_price_band pc pf p prop) =
      apply_price_band pc pf p prop := by
  unfold apply_price_band apply_price_floor apply_price_ceiling
  split_ifs <;> rfl

/-- C10: whenever the selected price source yields NaN (in particular the
stored last-own-trade price before any own fill when the configured type
is last-own-trade), `get_price` returns the provider's mid price instead;
consequently `get_price` returns NaN only when the mid price itself is
NaN. -/
theorem C10_nan_fallback (pt : PriceType) (lotp : Option ℚ)
    (gp : PriceType → Option ℚ) :
    (selected_price pt lotp gp = none →
      get_price pt lotp gp = gp .MidPrice) ∧
    (get_price pt lotp gp = none → gp .MidPrice = none) := by
  constructor
  · intro h
    unfold get_price
    rw [h]
  · intro h
    unfold get_price at h
    cases hs : selected_price pt lotp gp with
    | none => rwa [hs] at h
    | some p => rw [hs] at h; simp at h

/-- C10 witness: the last-own-trade source before any fill falls back to
the mid price, and an everywhere-NaN provider makes the mid price the
only NaN source of the result. -/
theorem C10_nan_fallback_witness :
    get_price .LastOwnTrade none (fun _ => some 42) = some 42 ∧
    (fun _ => (none : Option ℚ)) PriceType.MidPrice = none :=
  ⟨(C10_nan_fallback .LastOwnTrade none (fun _ => some 42)).1 rfl,
   (C10_nan_fallback .BestBid none (fun _ => none)).2 rfl⟩

end GridOrder
